import Mathlib

/-!
Shallow embedding of `src/ec2_automation.py` (class `ScientifowAutomation`
and the module-level environment validation).

The external world (the EC2 API, the SSM API) is modelled by an `Oracle`:
it fixes the outcome of the launch call, the stream of SSM-registration
polls, and, for each of the three command stages, the send outcome and the
stream of command-invocation polls.  Polling loops that are unbounded in
the source (`monitor_command` is `while True`) are given a fuel argument;
a result of `none` means the loop has not yet returned after that many
polls, so every theorem about a completed run is conditioned on the run
returning `some` result.  Wall-clock time is represented by poll counts
(one tick per sleep), and the `start_time` and `end_time` bookkeeping of
the results dict is elided: no claim mentions it and it does not affect
control flow.
-/

namespace EC2Auto

/-- Outcome of the try-block of `launch_instance` (src lines 70-121):
`createFailed` is an exception raised by `ec2.create_instances` before
`self.instance_id` is assigned; `failedAfterCreate h` is an exception
raised after `self.instance_id = instance.id` (for example in
`wait_until_running` or `reload`), so the handle is recorded although the
method returns `False`; `ok h` is the successful path returning `True`. -/
inductive LaunchResult where
  | createFailed : LaunchResult
  | failedAfterCreate : String → LaunchResult
  | ok : String → LaunchResult
deriving DecidableEq

/-- One answer of `ssm.describe_instance_information` as observed by
`wait_for_ssm_registration` (src lines 129-150): an exception, an empty
`InstanceInformationList`, or a `PingStatus` string (the source's
`.get("PingStatus", "Unknown")` default is the string "Unknown"). -/
inductive SsmPollResult where
  | err : String → SsmPollResult
  | noInstances : SsmPollResult
  | ping : String → SsmPollResult
deriving DecidableEq

/-- One answer of `ssm.get_command_invocation` as observed by
`monitor_command` (src lines 183-212): an exception carrying its message,
or a response with a `Status` plus captured stdout and stderr. -/
inductive InvocationPoll where
  | err : String → InvocationPoll
  | result : String → String → String → InvocationPoll
deriving DecidableEq

/-- The mutable fields of the `ScientifowAutomation` object (`self.instance_id`,
`self.commands`), instrumented with a counter of how many times the EC2
`terminate` API call was actually issued (src line 408). -/
structure AutoState where
  instance_id : Option String
  commands : List (String × String)
  terminateCalls : Nat
deriving DecidableEq

/-- One entry of `results["commands"]` (src lines 442-446, 453-457, 461-465). -/
structure StageRecord where
  success : Bool
  stdout : String
  stderr : String
deriving DecidableEq

/-- The `results` dict built by `run_full_automation` (src lines 419-425),
without the `start_time` / `end_time` / `duration` bookkeeping.  The
`commands` dict is an insertion-ordered association list. -/
structure RunResults where
  instance_id : Option String
  commands : List (String × StageRecord)
  success : Bool
  error : Option String
deriving DecidableEq

/-- Initial object state set by `__init__` (src lines 49-51). -/
def initState : AutoState :=
  { instance_id := none, commands := [], terminateCalls := 0 }

/-- Initial `results` dict (src lines 419-425). -/
def initResults : RunResults :=
  { instance_id := none, commands := [], success := false, error := none }

/-- Dict lookup in `results["commands"]`. -/
def lookupStage : List (String × StageRecord) → String → Option StageRecord
  | [], _ => none
  | (k, v) :: rest, name => if k == name then some v else lookupStage rest name

/-- Key-presence in `results["commands"]`. -/
def hasStage (m : List (String × StageRecord)) (name : String) : Bool :=
  (lookupStage m name).isSome

/-- `launch_instance` (src lines 53-121): on success and on an exception
after instance creation, `self.instance_id` is assigned; the Boolean is
the method's return value. -/
def launch_instance (st : AutoState) (outcome : LaunchResult) : AutoState × Bool :=
  match outcome with
  | .createFailed => (st, false)
  | .failedAfterCreate h => ({ st with instance_id := some h }, false)
  | .ok h => ({ st with instance_id := some h }, true)

/-- The test of src line 143: the polled status equals the "Online" sentinel.
An exception and an empty information list both fail the test. -/
def pingIsOnline : SsmPollResult → Bool
  | .ping s => s == "Online"
  | _ => false

/-- `wait_for_ssm_registration` (src lines 123-155).  The while-loop runs
while `time.time() - start_time < timeout` and sleeps 10 seconds per
iteration, so with an idealised zero query latency it performs
`timeout / 10` iterations; the first argument of the recursion is that
iteration budget and the second the index of the next poll.  An exception
(src lines 149-150) is logged and the loop continues; on budget exhaustion
the method returns `False` (src line 155) - the return type is `Bool`, so
a timeout is a value, never a raised error. -/
def wait_for_ssm_registration (polls : Nat → SsmPollResult) : Nat → Nat → Bool
  | 0, _ => false
  | fuel + 1, i =>
    if pingIsOnline (polls i) then true
    else wait_for_ssm_registration polls fuel (i + 1)

/-- Default `timeout=300` of `wait_for_ssm_registration` (src line 123). -/
def SSM_TIMEOUT : Nat := 300

/-- The `time.sleep(10)` between SSM polls (src line 152). -/
def SSM_POLL_INTERVAL : Nat := 10

/-- Python's `str.strip()` with no argument: remove leading and trailing
whitespace (used on the captured stdout/stderr, src lines 192-193). -/
def pyStrip (s : String) : String :=
  ⟨((s.data.dropWhile Char.isWhitespace).reverse.dropWhile Char.isWhitespace).reverse⟩

/-- The terminal statuses of src line 191. -/
def terminalStatuses : List String := ["Success", "Failed", "Cancelled", "TimedOut"]

/-- `monitor_command` (src lines 178-212), fuel-indexed because the source
loop is `while True` with no client-side deadline: arguments are the poll
stream, the remaining fuel and the index of the next poll.  A terminal
status returns `(status == "Success", stdout.strip(), stderr.strip())`
(src lines 191-205); a non-terminal status sleeps and polls again (src
line 208); an exception while polling returns `(False, "", str(e))`
(src lines 210-212).  `none` means the loop is still running after the
given number of polls. -/
def monitor_command (polls : Nat → InvocationPoll) : Nat → Nat → Option (Bool × String × String)
  | 0, _ => none
  | fuel + 1, i =>
    match polls i with
    | .err msg => some (false, "", msg)
    | .result status stdout stderr =>
      if terminalStatuses.contains status then
        some (status == "Success", pyStrip stdout, pyStrip stderr)
      else
        monitor_command polls fuel (i + 1)

/-- A poll observation on which `monitor_command` returns: a terminal
status (src line 191) or a query error (src line 210). -/
def haltingPoll : InvocationPoll → Bool
  | .err _ => true
  | .result status _ _ => terminalStatuses.contains status

/-- The `self.commands[command_name] = command_id` bookkeeping of
`send_command` (src lines 157-176): on a successful send the command id is
recorded under the stage name; on an exception the method returns `None`
and the dict is untouched.  The literal command text sent to the instance
is elided: it never influences the orchestrator's control flow. -/
def send_command (st : AutoState) (command_name : String) (outcome : Option String) :
    AutoState × Option String :=
  match outcome with
  | some cid => ({ st with commands := st.commands ++ [(command_name, cid)] }, some cid)
  | none => (st, none)

/-- The shared tail of `run_environment_check`, `run_scientiflow_workflow`
and `upload_results_to_s3` (src lines 234-237, 359-362, 393-396):
`command_id = self.send_command(...)`; if it is truthy, return
`self.monitor_command(command_id, ...)`, else return `False, "", ""`. -/
def run_stage (st : AutoState) (command_name : String) (sendOutcome : Option String)
    (polls : Nat → InvocationPoll) (fuel : Nat) :
    Option (AutoState × (Bool × String × String)) :=
  match send_command st command_name sendOutcome with
  | (st2, some _) =>
    match monitor_command polls fuel 0 with
    | some res => some (st2, res)
    | none => none
  | (st2, none) => some (st2, (false, "", ""))

/-- `terminate_instance` (src lines 398-415): when `self.instance_id` is
`None` the method returns without touching EC2; otherwise it issues one
`instance.terminate()` call (counted here) and waits, catching any
exception, so the method itself never raises. -/
def terminate_instance (st : AutoState) : AutoState :=
  match st.instance_id with
  | none => st
  | some _ => { st with terminateCalls := st.terminateCalls + 1 }

/-- The environment of the whole run: the outcome the external services
would hand each call of `run_full_automation`. -/
structure Oracle where
  launch : LaunchResult
  ssmPolls : Nat → SsmPollResult
  envSend : Option String
  envPolls : Nat → InvocationPoll
  wfSend : Option String
  wfPolls : Nat → InvocationPoll
  s3Send : Option String
  s3Polls : Nat → InvocationPoll

/-- The `finally` block of `run_full_automation` (src lines 476-480):
`self.terminate_instance()` runs unconditionally before the results are
returned. -/
def finalize (st : AutoState) (r : RunResults) : AutoState × RunResults :=
  (terminate_instance st, r)

/-- The `stdout[:1000] if stdout else ""` truncation (src lines 444-445 etc.):
Python slicing keeps the first 1000 characters, and on the empty string the
conditional expression also yields the empty string. -/
def truncate1000 (s : String) : String := ⟨s.data.take 1000⟩

/-- `run_full_automation` (src lines 417-482).  The three explicit
`raise Exception(...)` statements (src lines 432, 438, 449) jump to the
`except` clause, which stores the message in `results["error"]`; every
path then passes through `finalize`.  All other methods called here catch
their own exceptions, so no further exception paths exist in the body.
`none` is returned only when a monitoring loop is still running after
`fuel` polls (a model artifact of the unbounded source loop). -/
def run_full_automation (o : Oracle) (fuel : Nat) : Option (AutoState × RunResults) :=
  match launch_instance initState o.launch with
  | (st1, false) =>
    some (finalize st1 { initResults with error := some "Failed to launch instance" })
  | (st1, true) =>
    let r1 := { initResults with instance_id := st1.instance_id }
    if wait_for_ssm_registration o.ssmPolls (SSM_TIMEOUT / SSM_POLL_INTERVAL) 0 = false then
      some (finalize st1 { r1 with error := some "Instance failed to register with SSM" })
    else
      match run_stage st1 "Environment Check" o.envSend o.envPolls fuel with
      | none => none
      | some (st2, (envS, envOut, envErr)) =>
        let r2 := { r1 with commands := r1.commands ++
          [("environment_check", StageRecord.mk envS (truncate1000 envOut) (truncate1000 envErr))] }
        if envS = false then
          some (finalize st2 { r2 with error := some "Environment check failed" })
        else
          match run_stage st2 "Complete Scientiflow Workflow" o.wfSend o.wfPolls fuel with
          | none => none
          | some (st3, (wfS, wfOut, wfErr)) =>
            let r3 := { r2 with commands := r2.commands ++
              [("scientiflow_workflow", StageRecord.mk wfS (truncate1000 wfOut) (truncate1000 wfErr))] }
            match run_stage st3 "S3 Upload" o.s3Send o.s3Polls fuel with
            | none => none
            | some (st4, (s3S, s3Out, s3Err)) =>
              let r4 := { r3 with commands := r3.commands ++
                [("s3_upload", StageRecord.mk s3S (truncate1000 s3Out) (truncate1000 s3Err))] }
              some (finalize st4 { r4 with success := wfS })

/-- The module-level configuration read from the environment
(src lines 19-26): `os.getenv` returns `None` when a variable is unset. -/
structure EnvConfig where
  scientiflow_token : Option String
  first_job_flag : Option String
  extend_job_flag : Option String
  input_s3_project_path : Option String
  user_id : Option String
  project_title : Option String
  job_title : Option String
  job_id : Option String
deriving DecidableEq

/-- Python truthiness of an optional string: `None` and `""` are falsy. -/
def truthy : Option String → Bool
  | none => false
  | some s => !s.isEmpty

/-- The module-level validation (src lines 28-41): each required variable
is checked with `if not X: raise ValueError(...)`, in source order;
`JOB_ID` (src line 26) is read but never checked. -/
def validate_env (c : EnvConfig) : Except String Unit :=
  if truthy c.scientiflow_token = false then
    Except.error "SCIENTIFLOW_TOKEN_CONTENT not found in environment variables"
  else if truthy c.first_job_flag = false then
    Except.error "FIRST_JOB_FLAG not found in environment variables"
  else if truthy c.extend_job_flag = false then
    Except.error "EXTEND_JOB_FLAG not found in environment variables"
  else if truthy c.input_s3_project_path = false then
    Except.error "INPUT_S3_PROJECT_PATH not found in environment variables"
  else if truthy c.user_id = false then
    Except.error "USER_ID not found in environment variables"
  else if truthy c.project_title = false then
    Except.error "PROJECT_TITLE not found in environment variables"
  else if truthy c.job_title = false then
    Except.error "JOB_TITLE not found in environment variables"
  else
    Except.ok ()

/-- The module as a whole: the validation of src lines 28-41 runs at import
time, before the AWS clients are built (src lines 44-45) and before `main`
calls `run_full_automation` (src line 493); a validation error therefore
aborts the process before any compute resource is provisioned. -/
def run_module (c : EnvConfig) (o : Oracle) (fuel : Nat) :
    Except String (Option (AutoState × RunResults)) :=
  match validate_env c with
  | .error e => .error e
  | .ok _ => .ok (run_full_automation o fuel)

/-! Concrete environments, used to evaluate the embedding at explicit inputs. -/

/-- A happy-path environment: launch succeeds, the first SSM poll reports
"Online", and each of the three command stages is dispatched and polls to
"Success" immediately. -/
def happyOracle : Oracle :=
  { launch := .ok "i-0abc123"
  , ssmPolls := fun _ => .ping "Online"
  , envSend := some "cmd-env"
  , envPolls := fun _ => .result "Success" "env ok" ""
  , wfSend := some "cmd-wf"
  , wfPolls := fun _ => .result "Success" "wf ok" ""
  , s3Send := some "cmd-s3"
  , s3Polls := fun _ => .result "Success" "up ok" "" }

/-- Like `happyOracle` but the environment check polls to "Failed". -/
def envFailOracle : Oracle :=
  { happyOracle with envPolls := fun _ => .result "Failed" "diag" "boom" }

/-- Like `happyOracle` but the main workflow polls to "Failed". -/
def wfFailOracle : Oracle :=
  { happyOracle with wfPolls := fun _ => .result "Failed" "" "exit 1" }

/-- Like `happyOracle` but the launch call raises after the instance id was
already assigned (an exception in `wait_until_running`, src line 106). -/
def lateLaunchFailOracle : Oracle :=
  { happyOracle with launch := .failedAfterCreate "i-0dead99" }

/-- Like `happyOracle` but `ec2.create_instances` itself raises, so no
instance id is ever assigned. -/
def createFailOracle : Oracle :=
  { happyOracle with launch := .createFailed }

/-- A command-status stream whose first query raises and whose later
queries report "Success". -/
def errThenSuccessPolls : Nat → InvocationPoll
  | 0 => .err "query boom"
  | _ + 1 => .result "Success" "later ok" ""

/-- A command-status stream that reports "InProgress" forever. -/
def inProgressPolls : Nat → InvocationPoll :=
  fun _ => .result "InProgress" "" ""

/-- An SSM-poll stream whose first query raises and whose later queries
report "Online". -/
def ssmErrThenOnline : Nat → SsmPollResult
  | 0 => .err "throttled"
  | _ + 1 => .ping "Online"

/-- An SSM-poll stream that never reports "Online". -/
def ssmNeverOnline : Nat → SsmPollResult :=
  fun _ => .ping "ConnectionLost"

/-- A fully populated configuration whose optional job id is unset. -/
def fullConfig : EnvConfig :=
  { scientiflow_token := some "tok-1"
  , first_job_flag := some "true"
  , extend_job_flag := some "false"
  , input_s3_project_path := some "s3://bucket/in"
  , user_id := some "u42"
  , project_title := some "proj"
  , job_title := some "job"
  , job_id := none }

/-- `fullConfig` with the required user id unset. -/
def missingUserConfig : EnvConfig :=
  { fullConfig with user_id := none }

/-- The final object state of the happy-path run (`happyOracle`, fuel 3). -/
def happyFinalState : AutoState :=
  AutoState.mk (some "i-0abc123")
    [("Environment Check", "cmd-env"), ("Complete Scientiflow Workflow", "cmd-wf"),
     ("S3 Upload", "cmd-s3")] 1

/-- The results of the happy-path run (`happyOracle`, fuel 3). -/
def happyFinalResults : RunResults :=
  RunResults.mk (some "i-0abc123")
    [("environment_check", StageRecord.mk true "env ok" ""),
     ("scientiflow_workflow", StageRecord.mk true "wf ok" ""),
     ("s3_upload", StageRecord.mk true "up ok" "")] true none

/-- The final object state of the run with a failing environment check
(`envFailOracle`, fuel 3): only the environment-check command was sent. -/
def envFailFinalState : AutoState :=
  AutoState.mk (some "i-0abc123") [("Environment Check", "cmd-env")] 1

/-- The results of the run with a failing environment check
(`envFailOracle`, fuel 3). -/
def envFailFinalResults : RunResults :=
  RunResults.mk (some "i-0abc123")
    [("environment_check", StageRecord.mk false "diag" "boom")] false
    (some "Environment check failed")

/-- The results of the run with a failing main workflow (`wfFailOracle`,
fuel 3): the upload stage still ran and succeeded. -/
def wfFailFinalResults : RunResults :=
  RunResults.mk (some "i-0abc123")
    [("environment_check", StageRecord.mk true "env ok" ""),
     ("scientiflow_workflow", StageRecord.mk false "" "exit 1"),
     ("s3_upload", StageRecord.mk true "up ok" "")] false none

/-! Helper lemmas about the embedded operations. -/

theorem terminate_instance_id (st : AutoState) :
    (terminate_instance st).instance_id = st.instance_id := by
  cases h : st.instance_id <;> simp [terminate_instance, h]

theorem terminate_instance_calls (st : AutoState) :
    (terminate_instance st).terminateCalls =
      st.terminateCalls + (if st.instance_id.isSome then 1 else 0) := by
  cases h : st.instance_id <;> simp [terminate_instance, h]

theorem run_stage_preserves {st st2 : AutoState} {nm : String} {so : Option String}
    {polls : Nat → InvocationPoll} {fuel : Nat} {res : Bool × String × String}
    (h : run_stage st nm so polls fuel = some (st2, res)) :
    st2.instance_id = st.instance_id ∧ st2.terminateCalls = st.terminateCalls := by
  cases so with
  | none =>
    simp only [run_stage, send_command, Option.some.injEq, Prod.mk.injEq] at h
    obtain ⟨rfl, -⟩ := h
    exact ⟨rfl, rfl⟩
  | some cid =>
    cases hm : monitor_command polls fuel 0 with
    | none => simp [run_stage, send_command, hm] at h
    | some v =>
      simp only [run_stage, send_command, hm, Option.some.injEq, Prod.mk.injEq] at h
      obtain ⟨rfl, -⟩ := h
      exact ⟨rfl, rfl⟩

/-- Every completed run follows one of the four completed control paths of
`run_full_automation`: launch failure, SSM-registration failure,
environment-check failure, or the full pipeline (environment check
succeeded, workflow and upload both polled to completion). -/
theorem run_cases (o : Oracle) (fuel : Nat) (st : AutoState) (r : RunResults)
    (h : run_full_automation o fuel = some (st, r)) :
    (∃ st1, launch_instance initState o.launch = (st1, false) ∧
      st = terminate_instance st1 ∧
      r = RunResults.mk none [] false (some "Failed to launch instance")) ∨
    (∃ st1, launch_instance initState o.launch = (st1, true) ∧
      wait_for_ssm_registration o.ssmPolls (SSM_TIMEOUT / SSM_POLL_INTERVAL) 0 = false ∧
      st = terminate_instance st1 ∧
      r = RunResults.mk st1.instance_id [] false
        (some "Instance failed to register with SSM")) ∨
    (∃ st1 st2 envOut envErr, launch_instance initState o.launch = (st1, true) ∧
      wait_for_ssm_registration o.ssmPolls (SSM_TIMEOUT / SSM_POLL_INTERVAL) 0 = true ∧
      run_stage st1 "Environment Check" o.envSend o.envPolls fuel =
        some (st2, (false, envOut, envErr)) ∧
      st = terminate_instance st2 ∧
      r = RunResults.mk st1.instance_id
        [("environment_check",
          StageRecord.mk false (truncate1000 envOut) (truncate1000 envErr))]
        false (some "Environment check failed")) ∨
    (∃ st1 st2 st3 st4 envOut envErr wfS wfOut wfErr s3S s3Out s3Err,
      launch_instance initState o.launch = (st1, true) ∧
      wait_for_ssm_registration o.ssmPolls (SSM_TIMEOUT / SSM_POLL_INTERVAL) 0 = true ∧
      run_stage st1 "Environment Check" o.envSend o.envPolls fuel =
        some (st2, (true, envOut, envErr)) ∧
      run_stage st2 "Complete Scientiflow Workflow" o.wfSend o.wfPolls fuel =
        some (st3, (wfS, wfOut, wfErr)) ∧
      run_stage st3 "S3 Upload" o.s3Send o.s3Polls fuel =
        some (st4, (s3S, s3Out, s3Err)) ∧
      st = terminate_instance st4 ∧
      r = RunResults.mk st1.instance_id
        [("environment_check",
          StageRecord.mk true (truncate1000 envOut) (truncate1000 envErr)),
         ("scientiflow_workflow",
          StageRecord.mk wfS (truncate1000 wfOut) (truncate1000 wfErr)),
         ("s3_upload",
          StageRecord.mk s3S (truncate1000 s3Out) (truncate1000 s3Err))]
        wfS none) := by
  unfold run_full_automation at h
  split at h
  next st1 heq =>
    refine Or.inl ⟨st1, heq, ?_, ?_⟩
    · simp only [finalize, Option.some.injEq, Prod.mk.injEq] at h
      exact h.1.symm
    · simp only [finalize, Option.some.injEq, Prod.mk.injEq] at h
      rw [← h.2]; rfl
  next st1 heq =>
    split at h
    next hw =>
      refine Or.inr (Or.inl ⟨st1, heq, hw, ?_, ?_⟩)
      · simp only [finalize, Option.some.injEq, Prod.mk.injEq] at h
        exact h.1.symm
      · simp only [finalize, Option.some.injEq, Prod.mk.injEq] at h
        rw [← h.2]; rfl
    next hw =>
      have hw2 : wait_for_ssm_registration o.ssmPolls (SSM_TIMEOUT / SSM_POLL_INTERVAL) 0
          = true := by
        cases hb : wait_for_ssm_registration o.ssmPolls (SSM_TIMEOUT / SSM_POLL_INTERVAL) 0
        · exact absurd hb hw
        · rfl
      split at h
      next => exact Option.noConfusion h
      next st2 envS envOut envErr heq2 =>
        split at h
        next henv =>
          subst henv
          refine Or.inr (Or.inr (Or.inl ⟨st1, st2, envOut, envErr, heq, hw2, heq2, ?_, ?_⟩))
          · simp only [finalize, Option.some.injEq, Prod.mk.injEq] at h
            exact h.1.symm
          · simp only [finalize, Option.some.injEq, Prod.mk.injEq] at h
            rw [← h.2]; rfl
        next henv =>
          have henv2 : envS = true := by
            cases envS
            · exact absurd rfl henv
            · rfl
          subst henv2
          split at h
          next => exact Option.noConfusion h
          next st3 wfS wfOut wfErr heq3 =>
            split at h
            next => exact Option.noConfusion h
            next st4 s3S s3Out s3Err heq4 =>
              refine Or.inr (Or.inr (Or.inr
                ⟨st1, st2, st3, st4, envOut, envErr, wfS, wfOut, wfErr, s3S, s3Out, s3Err,
                  heq, hw2, heq2, heq3, heq4, ?_, ?_⟩))
              · simp only [finalize, Option.some.injEq, Prod.mk.injEq] at h
                exact h.1.symm
              · simp only [finalize, Option.some.injEq, Prod.mk.injEq] at h
                rw [← h.2]; rfl

theorem terminate_calls_one {stX : AutoState} (h0 : stX.terminateCalls = 0)
    (hid : stX.instance_id.isSome = true) :
    (terminate_instance stX).terminateCalls = 1 := by
  rw [terminate_instance_calls, h0, hid]
  simp

theorem launch_true_state {o : Oracle} {st1 : AutoState}
    (heq : launch_instance initState o.launch = (st1, true)) :
    st1.instance_id.isSome = true ∧ st1.terminateCalls = 0 := by
  cases hl : o.launch <;> rw [hl] at heq <;>
    simp only [launch_instance, Prod.mk.injEq, initState] at heq
  · exact absurd heq.2 (by simp)
  · exact absurd heq.2 (by simp)
  · obtain ⟨rfl, -⟩ := heq
    exact ⟨rfl, rfl⟩

/-- C1: for every completed run of `run_full_automation` - normal
completion, failure at any stage, or an exception raised in any stage
after the instance handle was assigned - if an instance handle was ever
obtained (the final object state carries an instance id) then the EC2
terminate call was issued exactly once before the run returned its
results. -/
theorem run_terminates_obtained_handle_exactly_once
    (o : Oracle) (fuel : Nat) (st : AutoState) (r : RunResults)
    (h : run_full_automation o fuel = some (st, r))
    (hid : st.instance_id.isSome = true) :
    st.terminateCalls = 1 := by
  rcases run_cases o fuel st r h with
    ⟨st1, heq, rfl, -⟩ | ⟨st1, heq, -, rfl, -⟩ |
    ⟨st1, st2, eo, ee, heq, -, heq2, rfl, -⟩ |
    ⟨st1, st2, st3, st4, eo, ee, wfS, wo, we, s3S, so2, se, heq, -, heq2, heq3, heq4, rfl, -⟩
  · rw [terminate_instance_id] at hid
    cases hl : o.launch <;> rw [hl] at heq <;>
      simp only [launch_instance, Prod.mk.injEq, initState] at heq
    · obtain ⟨rfl, -⟩ := heq
      exact absurd hid (by simp)
    · obtain ⟨rfl, -⟩ := heq
      exact terminate_calls_one rfl rfl
    · exact absurd heq.2 (by simp)
  · obtain ⟨hs, hc⟩ := launch_true_state heq
    exact terminate_calls_one hc hs
  · obtain ⟨hs, hc⟩ := launch_true_state heq
    obtain ⟨hp1, hp2⟩ := run_stage_preserves heq2
    exact terminate_calls_one (hp2.trans hc) (by rw [hp1]; exact hs)
  · obtain ⟨hs, hc⟩ := launch_true_state heq
    obtain ⟨h21, h22⟩ := run_stage_preserves heq2
    obtain ⟨h31, h32⟩ := run_stage_preserves heq3
    obtain ⟨h41, h42⟩ := run_stage_preserves heq4
    exact terminate_calls_one ((h42.trans h32).trans (h22.trans hc))
      (by rw [h41, h31, h21]; exact hs)

set_option maxRecDepth 8000 in
/-- Witness for C1: the happy-path run completes with the handle obtained
and exactly one terminate call issued. -/
theorem run_terminates_obtained_handle_exactly_once_witness :
    happyFinalState.terminateCalls = 1 :=
  run_terminates_obtained_handle_exactly_once happyOracle 3
    happyFinalState happyFinalResults (by rfl) (by rfl)

set_option maxRecDepth 8000 in
/-- C4 counterexample: with an environment in which `ec2.create_instances`
succeeds but the launch stage then raises (so `launch_instance` returns
`False` - provisioning failed), the completed run has issued one terminate
call, refuting "if provisioning fails, terminate is never invoked". -/
theorem provisioning_failure_still_terminates_cex :
    run_full_automation lateLaunchFailOracle 1 =
      some (AutoState.mk (some "i-0dead99") [] 1,
        RunResults.mk none [] false (some "Failed to launch instance")) := by
  rfl

/-- C4 (amended): if provisioning fails before an instance handle was
assigned (the create call itself raised), terminate is never invoked. -/
theorem no_handle_no_terminate
    (o : Oracle) (fuel : Nat) (st : AutoState) (r : RunResults)
    (hc : o.launch = LaunchResult.createFailed)
    (h : run_full_automation o fuel = some (st, r)) :
    st.terminateCalls = 0 := by
  rcases run_cases o fuel st r h with
    ⟨st1, heq, rfl, -⟩ | ⟨st1, heq, -, rfl, -⟩ |
    ⟨st1, st2, eo, ee, heq, -, heq2, rfl, -⟩ |
    ⟨st1, st2, st3, st4, eo, ee, wfS, wo, we, s3S, so2, se, heq, -, heq2, heq3, heq4, rfl, -⟩
  · rw [hc] at heq
    simp only [launch_instance, Prod.mk.injEq, initState] at heq
    obtain ⟨rfl, -⟩ := heq
    rw [terminate_instance_calls]
    simp
  · rw [hc] at heq
    simp only [launch_instance, Prod.mk.injEq, initState] at heq
    exact absurd heq.2 (by simp)
  · rw [hc] at heq
    simp only [launch_instance, Prod.mk.injEq, initState] at heq
    exact absurd heq.2 (by simp)
  · rw [hc] at heq
    simp only [launch_instance, Prod.mk.injEq, initState] at heq
    exact absurd heq.2 (by simp)

set_option maxRecDepth 8000 in
/-- Witness for the amended C4: a run whose create call raises completes
with zero terminate calls. -/
theorem no_handle_no_terminate_witness :
    (AutoState.mk (none : Option String) [] 0).terminateCalls = 0 :=
  no_handle_no_terminate createFailOracle 0
    (AutoState.mk none [] 0)
    (RunResults.mk none [] false (some "Failed to launch instance"))
    rfl (by rfl)

/-- C2: for every completed run, the returned overall-success Boolean
(`results["success"]`) is true iff the main-workflow stage was attempted
(its key is in the recorded stage results) and its recorded terminal
status was success; on every other path (stage skipped, fatal failure
before it was reached, or non-success status) it is false. -/
theorem overall_success_iff_workflow_success
    (o : Oracle) (fuel : Nat) (st : AutoState) (r : RunResults)
    (h : run_full_automation o fuel = some (st, r)) :
    r.success = true ↔
      ∃ w, lookupStage r.commands "scientiflow_workflow" = some w ∧ w.success = true := by
  rcases run_cases o fuel st r h with
    ⟨st1, -, -, rfl⟩ | ⟨st1, -, -, -, rfl⟩ |
    ⟨st1, st2, eo, ee, -, -, -, -, rfl⟩ |
    ⟨st1, st2, st3, st4, eo, ee, wfS, wo, we, s3S, so2, se, -, -, -, -, -, -, rfl⟩
  · simp [lookupStage]
  · simp [lookupStage]
  · simp [lookupStage]
  · cases wfS <;> simp [lookupStage]

/-- Witness for C2: on the happy-path run the equivalence holds with the
workflow stage recorded successful and the Boolean true. -/
theorem overall_success_iff_workflow_success_witness :
    happyFinalResults.success = true ↔
      ∃ w, lookupStage happyFinalResults.commands "scientiflow_workflow" = some w ∧
        w.success = true :=
  overall_success_iff_workflow_success happyOracle 3
    happyFinalState happyFinalResults (by rfl)

set_option maxRecDepth 8000 in
/-- C3 counterexample: a completed run whose environment check polls to
the non-success status "Failed" records only the environment-check stage
and aborts; no upload command is ever sent and no "s3_upload" entry is
recorded, refuting "the ArtifactUpload stage is still attempted". -/
theorem env_check_failure_skips_upload_cex :
    run_full_automation envFailOracle 3 = some (envFailFinalState, envFailFinalResults) ∧
    hasStage envFailFinalResults.commands "s3_upload" = false ∧
    envFailFinalState.commands = [("Environment Check", "cmd-env")] :=
  ⟨by rfl, by rfl, by rfl⟩

/-- C3 (amended): for every completed run in which the environment check
completes with a non-success result, the remaining pipeline skips both the
main-workflow stage and the upload stage: neither is recorded and the run
aborts to finalization with the environment-check error. -/
theorem env_check_failure_skips_workflow_and_upload
    (o : Oracle) (fuel : Nat) (st : AutoState) (r : RunResults)
    (h : run_full_automation o fuel = some (st, r))
    (e : StageRecord) (he : lookupStage r.commands "environment_check" = some e)
    (hf : e.success = false) :
    hasStage r.commands "scientiflow_workflow" = false ∧
    hasStage r.commands "s3_upload" = false ∧
    r.error = some "Environment check failed" := by
  rcases run_cases o fuel st r h with
    ⟨st1, -, -, rfl⟩ | ⟨st1, -, -, -, rfl⟩ |
    ⟨st1, st2, eo, ee, -, -, -, -, rfl⟩ |
    ⟨st1, st2, st3, st4, eo, ee, wfS, wo, we, s3S, so2, se, -, -, -, -, -, -, rfl⟩
  · simp [lookupStage] at he
  · simp [lookupStage] at he
  · exact ⟨by simp [hasStage, lookupStage], by simp [hasStage, lookupStage], rfl⟩
  · simp only [lookupStage, List.cons.injEq] at he
    rw [if_pos (by rfl)] at he
    obtain rfl := Option.some.inj he
    simp at hf

/-- Witness for the amended C3: the failing-environment-check run skips
both later stages. -/
theorem env_check_failure_skips_workflow_and_upload_witness :
    hasStage envFailFinalResults.commands "scientiflow_workflow" = false ∧
    hasStage envFailFinalResults.commands "s3_upload" = false ∧
    envFailFinalResults.error = some "Environment check failed" :=
  env_check_failure_skips_workflow_and_upload envFailOracle 3
    envFailFinalState envFailFinalResults (by rfl)
    (StageRecord.mk false "diag" "boom") (by rfl) (by rfl)

/-- C7: for every completed run in which the main-workflow stage was
attempted and failed, the upload stage still ran and its result is
recorded, and the overall-success Boolean is the one determined by the
workflow stage (false), whatever the upload outcome was. -/
theorem upload_runs_after_workflow_failure
    (o : Oracle) (fuel : Nat) (st : AutoState) (r : RunResults)
    (h : run_full_automation o fuel = some (st, r))
    (w : StageRecord) (hw : lookupStage r.commands "scientiflow_workflow" = some w)
    (hf : w.success = false) :
    (∃ u, lookupStage r.commands "s3_upload" = some u) ∧ r.success = false := by
  rcases run_cases o fuel st r h with
    ⟨st1, -, -, rfl⟩ | ⟨st1, -, -, -, rfl⟩ |
    ⟨st1, st2, eo, ee, -, -, -, -, rfl⟩ |
    ⟨st1, st2, st3, st4, eo, ee, wfS, wo, we, s3S, so2, se, -, -, -, -, -, -, rfl⟩
  · simp [lookupStage] at hw
  · simp [lookupStage] at hw
  · simp [lookupStage] at hw
  · simp only [lookupStage] at hw
    rw [if_neg (by simp), if_pos (by rfl)] at hw
    obtain rfl := Option.some.inj hw
    simp only at hf
    subst hf
    exact ⟨⟨StageRecord.mk s3S (truncate1000 so2) (truncate1000 se), by simp [lookupStage]⟩, rfl⟩

/-- Witness for C7: in the failing-workflow run the upload stage is
recorded and the overall Boolean is false. -/
theorem upload_runs_after_workflow_failure_witness :
    (∃ u, lookupStage wfFailFinalResults.commands "s3_upload" = some u) ∧
    wfFailFinalResults.success = false :=
  upload_runs_after_workflow_failure wfFailOracle 3
    happyFinalState wfFailFinalResults (by rfl)
    (StageRecord.mk false "" "exit 1") (by rfl) (by rfl)

/-- C10: in every completed run, presence of a stage key in
`results["commands"]` is equivalent to that stage having been attempted:
the environment check is recorded iff the launch returned success and the
SSM registration wait returned true; the workflow is recorded iff the
recorded environment check succeeded; the upload is recorded iff the
workflow was; so a stage skipped by an earlier fatal condition is absent
while an attempted-and-failed stage (such as a failing environment check)
is recorded before the run aborts. -/
theorem stage_key_presence_iff_attempted
    (o : Oracle) (fuel : Nat) (st : AutoState) (r : RunResults)
    (h : run_full_automation o fuel = some (st, r)) :
    (hasStage r.commands "environment_check" = true ↔
      ((launch_instance initState o.launch).2 = true ∧
        wait_for_ssm_registration o.ssmPolls (SSM_TIMEOUT / SSM_POLL_INTERVAL) 0 = true)) ∧
    (hasStage r.commands "scientiflow_workflow" = true ↔
      (∃ e, lookupStage r.commands "environment_check" = some e ∧ e.success = true)) ∧
    (hasStage r.commands "s3_upload" = true ↔
      hasStage r.commands "scientiflow_workflow" = true) := by
  rcases run_cases o fuel st r h with
    ⟨st1, heq, -, rfl⟩ | ⟨st1, heq, hw, -, rfl⟩ |
    ⟨st1, st2, eo, ee, heq, hw, -, -, rfl⟩ |
    ⟨st1, st2, st3, st4, eo, ee, wfS, wo, we, s3S, so2, se, heq, hw, -, -, -, -, rfl⟩
  · rw [heq]
    simp [hasStage, lookupStage]
  · rw [heq, hw]
    simp [hasStage, lookupStage]
  · rw [heq, hw]
    simp [hasStage, lookupStage]
  · rw [heq, hw]
    simp [hasStage, lookupStage]

/-- Witness for C10: the equivalences instantiated on the happy-path run. -/
theorem stage_key_presence_iff_attempted_witness :
    (hasStage happyFinalResults.commands "environment_check" = true ↔
      ((launch_instance initState happyOracle.launch).2 = true ∧
        wait_for_ssm_registration happyOracle.ssmPolls (SSM_TIMEOUT / SSM_POLL_INTERVAL) 0
          = true)) ∧
    (hasStage happyFinalResults.commands "scientiflow_workflow" = true ↔
      (∃ e, lookupStage happyFinalResults.commands "environment_check" = some e ∧
        e.success = true)) ∧
    (hasStage happyFinalResults.commands "s3_upload" = true ↔
      hasStage happyFinalResults.commands "scientiflow_workflow" = true) :=
  stage_key_presence_iff_attempted happyOracle 3
    happyFinalState happyFinalResults (by rfl)

/-- C5 counterexample: with a status stream whose first query raises and
whose next poll would report "Success", `monitor_command` returns failure
with the error text already at the first poll: the loop aborts on a query
error instead of continuing to the next polling interval. -/
theorem monitor_error_aborts_wait_cex :
    monitor_command errThenSuccessPolls 5 0 = some (false, "", "query boom") ∧
    monitor_command errThenSuccessPolls 5 0 ≠ some (true, "later ok", "") :=
  ⟨by rfl, by decide⟩

/-- C5 (amended): an error raised while querying the execution's status
aborts the wait immediately: whenever the current poll raises,
`monitor_command` returns `(False, "", message)` rather than looping to
the next polling interval. -/
theorem monitor_error_returns_failure
    (polls : Nat → InvocationPoll) (fuel i : Nat) (msg : String)
    (he : polls i = InvocationPoll.err msg) :
    monitor_command polls (fuel + 1) i = some (false, "", msg) := by
  simp [monitor_command, he]

/-- Witness for the amended C5: the error-first stream returns the error
result at once. -/
theorem monitor_error_returns_failure_witness :
    monitor_command errThenSuccessPolls 1 0 = some (false, "", "query boom") :=
  monitor_error_returns_failure errThenSuccessPolls 0 0 "query boom" (by rfl)

theorem monitor_command_err (polls : Nat → InvocationPoll) (fuel i : Nat) (msg : String)
    (hp : polls i = InvocationPoll.err msg) :
    monitor_command polls (fuel + 1) i = some (false, "", msg) := by
  simp [monitor_command, hp]

theorem monitor_command_result (polls : Nat → InvocationPoll) (fuel i : Nat)
    (status stdout stderr : String)
    (hp : polls i = InvocationPoll.result status stdout stderr) :
    monitor_command polls (fuel + 1) i =
      if terminalStatuses.contains status then
        some (status == "Success", pyStrip stdout, pyStrip stderr)
      else monitor_command polls fuel (i + 1) := by
  simp only [monitor_command, hp]

theorem wait_ssm_succ (polls : Nat → SsmPollResult) (fuel i : Nat) :
    wait_for_ssm_registration polls (fuel + 1) i =
      if pingIsOnline (polls i) then true
      else wait_for_ssm_registration polls fuel (i + 1) := rfl

theorem monitor_inProgress_forever (fuel i : Nat) :
    monitor_command inProgressPolls fuel i = none := by
  induction fuel generalizing i with
  | zero => rfl
  | succ n ih =>
    unfold monitor_command
    simp only [inProgressPolls]
    rw [if_neg (by decide)]
    exact ih (i + 1)

/-- C6 counterexample: against a service that reports "InProgress" forever,
`monitor_command` never returns, however many poll attempts are allowed:
there is no bound within which the wait ends, refuting the claimed
re-check of an overall elapsed-time budget. -/
theorem monitor_no_time_budget_cex :
    (∃ n : Nat, monitor_command inProgressPolls n 0 ≠ none) = False := by
  apply eq_false
  rintro ⟨n, hn⟩
  exact hn (monitor_inProgress_forever n 0)

/-- C6 (amended): `monitor_command` enforces no client-side elapsed-time
budget of its own: within any number of allowed poll attempts, the wait
has returned exactly when some attempted poll reported a terminal status
or raised a query error; when no poll ever does (see the counterexample),
the loop runs forever. -/
theorem monitor_halts_iff_terminal_or_error
    (polls : Nat → InvocationPoll) (fuel i : Nat) :
    (monitor_command polls fuel i).isSome = true ↔
      ∃ k, k < fuel ∧ haltingPoll (polls (i + k)) = true := by
  induction fuel generalizing i with
  | zero =>
    simp [monitor_command]
  | succ n ih =>
    constructor
    · intro hs
      cases hp : polls i with
      | err msg =>
        exact ⟨0, by omega, by rw [Nat.add_zero, hp]; rfl⟩
      | result status stdout stderr =>
        rw [monitor_command_result polls n i status stdout stderr hp] at hs
        by_cases hterm : terminalStatuses.contains status = true
        · refine ⟨0, by omega, ?_⟩
          rw [Nat.add_zero, hp]
          simp only [haltingPoll]
          exact hterm
        · rw [if_neg hterm] at hs
          obtain ⟨k, hk, hh⟩ := (ih (i + 1)).1 hs
          refine ⟨k + 1, by omega, ?_⟩
          rw [show i + (k + 1) = i + 1 + k by omega]
          exact hh
    · rintro ⟨k, hk, hh⟩
      cases hp : polls i with
      | err msg =>
        rw [monitor_command_err polls n i msg hp]
        rfl
      | result status stdout stderr =>
        rw [monitor_command_result polls n i status stdout stderr hp]
        by_cases hterm : terminalStatuses.contains status = true
        · rw [if_pos hterm]
          rfl
        · rw [if_neg hterm]
          cases k with
          | zero =>
            rw [Nat.add_zero, hp] at hh
            simp only [haltingPoll] at hh
            exact absurd hh hterm
          | succ m =>
            apply (ih (i + 1)).2
            refine ⟨m, by omega, ?_⟩
            rw [show i + 1 + m = i + (m + 1) by omega]
            exact hh

/-- C8: an error from a registration-status query is treated as a
transient miss - the loop simply proceeds to the next polling interval
with one less iteration of budget - and when the whole budget elapses with
no poll reporting "Online", the wait returns `false` as a value (its
return type is `Bool`, so no error is raised). -/
theorem ssm_wait_error_transient_timeout_false
    (polls : Nat → SsmPollResult) (fuel i : Nat) :
    (∀ msg, polls i = SsmPollResult.err msg →
      wait_for_ssm_registration polls (fuel + 1) i =
        wait_for_ssm_registration polls fuel (i + 1)) ∧
    ((∀ j, j < fuel → pingIsOnline (polls (i + j)) = false) →
      wait_for_ssm_registration polls fuel i = false) := by
  constructor
  · intro msg hmsg
    rw [wait_ssm_succ, hmsg]
    rfl
  · induction fuel generalizing i with
    | zero => intro _; rfl
    | succ n ih =>
      intro hall
      have hx := hall 0 (by omega)
      rw [Nat.add_zero] at hx
      rw [wait_ssm_succ, if_neg (by simp [hx])]
      exact ih (i + 1) (fun j hj => by
        have hy := hall (j + 1) (by omega)
        rwa [show i + (j + 1) = i + 1 + j by omega] at hy)

/-- Witness for C8: a first-poll error makes one loop step equal the wait
with one less unit of budget, and a stream that never reports "Online"
times out to `false`. -/
theorem ssm_wait_error_transient_timeout_false_witness :
    (wait_for_ssm_registration ssmErrThenOnline 3 0 =
      wait_for_ssm_registration ssmErrThenOnline 2 1) ∧
    wait_for_ssm_registration ssmNeverOnline 30 0 = false :=
  ⟨(ssm_wait_error_transient_timeout_false ssmErrThenOnline 2 0).1 "throttled" (by rfl),
   (ssm_wait_error_transient_timeout_false ssmNeverOnline 30 0).2 (fun j _ => by rfl)⟩

theorem validate_env_ok_iff (c : EnvConfig) :
    validate_env c = Except.ok () ↔
      (truthy c.scientiflow_token = true ∧ truthy c.first_job_flag = true ∧
       truthy c.extend_job_flag = true ∧ truthy c.input_s3_project_path = true ∧
       truthy c.user_id = true ∧ truthy c.project_title = true ∧
       truthy c.job_title = true) := by
  unfold validate_env
  split_ifs with h1 h2 h3 h4 h5 h6 h7 <;> simp_all

/-- C9: for every configuration in which one of the seven required string
fields (token, first-job flag, extend-job flag, source path, user id,
project title, job title) is missing or empty, the module aborts with a
fatal configuration error and the run - hence any provisioning - is never
reached; the optional job id is never checked: with the seven required
fields present, the module proceeds to the run whatever the job id is. -/
theorem missing_required_env_raises_before_provisioning
    (c : EnvConfig) (o : Oracle) (fuel : Nat) :
    ((truthy c.scientiflow_token = false ∨ truthy c.first_job_flag = false ∨
      truthy c.extend_job_flag = false ∨ truthy c.input_s3_project_path = false ∨
      truthy c.user_id = false ∨ truthy c.project_title = false ∨
      truthy c.job_title = false) →
      ∃ msg, run_module c o fuel = Except.error msg) ∧
    ((truthy c.scientiflow_token = true ∧ truthy c.first_job_flag = true ∧
      truthy c.extend_job_flag = true ∧ truthy c.input_s3_project_path = true ∧
      truthy c.user_id = true ∧ truthy c.project_title = true ∧
      truthy c.job_title = true) →
      run_module c o fuel = Except.ok (run_full_automation o fuel)) := by
  constructor
  · intro hmiss
    cases hv : validate_env c with
    | error e => exact ⟨e, by simp [run_module, hv]⟩
    | ok u =>
      cases u
      have hall := (validate_env_ok_iff c).1 hv
      rcases hmiss with h|h|h|h|h|h|h <;> simp_all
  · intro hall
    have hv : validate_env c = Except.ok () := (validate_env_ok_iff c).2 hall
    simp [run_module, hv]

/-- Witness for C9: the configuration with the user id unset aborts with
an error, and the fully populated configuration with no job id reaches
the run. -/
theorem missing_required_env_raises_before_provisioning_witness :
    (∃ msg, run_module missingUserConfig happyOracle 3 = Except.error msg) ∧
    run_module fullConfig happyOracle 3 =
      Except.ok (run_full_automation happyOracle 3) :=
  ⟨(missing_required_env_raises_before_provisioning missingUserConfig happyOracle 3).1
      (Or.inr (Or.inr (Or.inr (Or.inr (Or.inl (by decide)))))),
   (missing_required_env_raises_before_provisioning fullConfig happyOracle 3).2 (by decide)⟩

end EC2Auto
